import Mathlib

/-!
Shallow embedding of the dice-configuration system, covering the client-side
configuration synchronization store
(src/frontend/src/domain/diceConfig/stores/diceConfigStore.ts) and the backend
dice-configuration service (diceConfigService / diceConfigValidation /
diceDefaults).

Modelling conventions:
- JS numbers are modeled as rationals (ℚ); there is no NaN/Infinity in scope
  (the Zod `z.number()` layer rejects NaN before any code modeled here runs).
- Impure reads (`Date.now()`, `generateSyncKey()`, storage reads, JSON parsing)
  are passed in as explicit parameters describing the value the environment
  produced at that call.
- JS strings handled character-by-character (trim / regex / parseInt in the
  custom-sides validator) are modeled as lists of characters.
-/

/-- Selection method enum: 'predefined' | 'custom' (DICE_SELECTION_METHOD). -/
inductive SelectionMethod
  | predefined
  | custom
deriving DecidableEq, Repr

/-- Storage medium: 'localStorage' | 'sessionStorage' | 'unavailable'
(DICE_STORAGE_STATUS and the store's storageType field). -/
inductive StorageType
  | localStorage
  | sessionStorage
  | unavailable
deriving DecidableEq, Repr

/-- probabilityRange ``{ min, max }`` as computed by calculateProbability. -/
structure ProbabilityRange where
  min : ℚ
  max : ℚ
deriving DecidableEq, Repr

/-- DiceConfig (frontend types/models.ts) and DiceConfigResponse (backend
diceConfigTypes.ts) share this shape. -/
structure DiceConfig where
  diceSides : ℚ
  selectionMethod : SelectionMethod
  probabilityRange : ProbabilityRange
  individualProbability : ℚ
  displayFormat : String
deriving DecidableEq, Repr

/-- SessionConfig (frontend types/models.ts): the SessionMetadata envelope. -/
structure SessionConfig where
  diceSides : ℚ
  selectionMethod : SelectionMethod
  timestamp : Int
  storageType : StorageType
  syncKey : String
deriving DecidableEq, Repr

/-- The zustand store state (interface DiceConfigStore, data fields only;
the actions are modeled as functions on this state below). -/
structure StoreState where
  config : Option DiceConfig
  sessionConfig : Option SessionConfig
  storageType : StorageType
  syncRetryCount : Nat
  pollingActive : Bool
deriving DecidableEq, Repr

/-- SESSION_EXPIRY_MS = 24 * 60 * 60 * 1000 (24 hours in milliseconds). -/
def SESSION_EXPIRY_MS : Int := 24 * 60 * 60 * 1000

/-- isSessionExpired: Date.now() - timestamp > SESSION_EXPIRY_MS.
`now` is the value Date.now() returned at the call. -/
def isSessionExpired (now timestamp : Int) : Bool :=
  now - timestamp > SESSION_EXPIRY_MS

/-- The store's initial state (create callback): config and sessionConfig
null, storageType as probed at module load, counter 0, polling off. -/
def initialState (st : StorageType) : StoreState :=
  { config := none
    sessionConfig := none
    storageType := st
    syncRetryCount := 0
    pollingActive := false }

/-- setConfig action: replaces config and builds a fresh sessionConfig with
timestamp = Date.now() (parameter `now`) and syncKey = generateSyncKey()
(parameter `syncKey`), keeping the current storageType. -/
def setConfig (s : StoreState) (config : DiceConfig) (now : Int) (syncKey : String) : StoreState :=
  { s with
    config := some config
    sessionConfig := some
      { diceSides := config.diceSides
        selectionMethod := config.selectionMethod
        timestamp := now
        storageType := s.storageType
        syncKey := syncKey } }

/-- Partial<SessionConfig> argument of updateSessionConfig: absent fields are
`none`. -/
structure SessionConfigUpdate where
  diceSides : Option ℚ
  selectionMethod : Option SelectionMethod
  timestamp : Option Int
  storageType : Option StorageType
  syncKey : Option String
deriving DecidableEq, Repr

/-- updateSessionConfig action: no-op when sessionConfig is null; otherwise
spreads the updates over the current record and then overwrites timestamp with
Date.now() (parameter `now`), exactly as the source spread order does. -/
def updateSessionConfig (s : StoreState) (u : SessionConfigUpdate) (now : Int) : StoreState :=
  match s.sessionConfig with
  | none => s
  | some cur =>
    { s with
      sessionConfig := some
        { diceSides := u.diceSides.getD cur.diceSides
          selectionMethod := u.selectionMethod.getD cur.selectionMethod
          timestamp := now
          storageType := u.storageType.getD cur.storageType
          syncKey := u.syncKey.getD cur.syncKey } }

/-- setStorageType action. -/
def setStorageType (s : StoreState) (t : StorageType) : StoreState :=
  { s with storageType := t }

/-- incrementSyncRetry action: count = syncRetryCount + 1; set it; if count
reaches 3, set pollingActive = true. -/
def incrementSyncRetry (s : StoreState) : StoreState :=
  let count := s.syncRetryCount + 1
  let s1 := { s with syncRetryCount := count }
  if count ≥ 3 then { s1 with pollingActive := true } else s1

/-- resetSyncRetry action: counter back to 0 and polling off. -/
def resetSyncRetry (s : StoreState) : StoreState :=
  { s with syncRetryCount := 0, pollingActive := false }

/-- setPollingActive action. -/
def setPollingActive (s : StoreState) (active : Bool) : StoreState :=
  { s with pollingActive := active }

/-- clearConfig action: wipes config, sessionConfig, counter and polling flag. -/
def clearConfig (s : StoreState) : StoreState :=
  { s with
    config := none
    sessionConfig := none
    syncRetryCount := 0
    pollingActive := false }

/-- The persisted record's `state` object as produced by the persist
middleware's partialize option: only config and sessionConfig are persisted. -/
structure PersistedState where
  config : Option DiceConfig
  sessionConfig : Option SessionConfig
deriving DecidableEq, Repr

/-- partialize: projects the store state to the persisted shape. -/
def toPersisted (s : StoreState) : PersistedState :=
  { config := s.config, sessionConfig := s.sessionConfig }

/-- onRehydrateStorage callback: skip when no sessionConfig was restored;
clear everything when the restored record is expired; otherwise, when the
re-probed storage type (parameter `probedType`, the getStorageType() result)
differs from the recorded one, update both the store field and the
sessionConfig record. `now` and `updTime` are the two Date.now() readings
(expiry check, and updateSessionConfig's timestamp refresh). -/
def onRehydrate (s : StoreState) (now : Int) (probedType : StorageType) (updTime : Int) : StoreState :=
  match s.sessionConfig with
  | none => s
  | some sc =>
    if isSessionExpired now sc.timestamp then
      clearConfig s
    else if sc.storageType ≠ probedType then
      updateSessionConfig (setStorageType s probedType)
        { diceSides := none
          selectionMethod := none
          timestamp := none
          storageType := some probedType
          syncKey := none } updTime
    else s

/-- What the storage event listener saw for a 'dice-config-store' key event:
either JSON.parse(event.newValue) threw (parseError), or it produced null
(payload none, the event.newValue === null case), or a parsed record (a parsed
object lacking `state` or `state.sessionConfig` is a record with that field
`none`). -/
inductive StorageNotification
  | parseError
  | payload (value : Option PersistedState)
deriving DecidableEq, Repr

/-- The `store.sessionConfig?.timestamp || 0` read (note a stored timestamp of
0 is falsy in JS and yields 0 as well, the same value). -/
def currentTimestampOf (s : StoreState) : Int :=
  match s.sessionConfig with
  | some sc => sc.timestamp
  | none => 0

/-- The storage event listener body for a matching key ('dice-config-store').
On parse failure the catch block runs incrementSyncRetry. When the parsed
payload carries a sessionConfig whose timestamp is strictly greater than the
current one, it runs setConfig(newValue.state.config) then resetSyncRetry;
if that config is null, building the new sessionConfig throws a TypeError
before any state change, and the same catch block runs incrementSyncRetry.
`now`/`syncKey` are the Date.now()/generateSyncKey() values inside setConfig. -/
def onStorageEvent (s : StoreState) (ev : StorageNotification) (now : Int) (syncKey : String) :
    StoreState :=
  match ev with
  | .parseError => incrementSyncRetry s
  | .payload none => s
  | .payload (some p) =>
    match p.sessionConfig with
    | none => s
    | some sc =>
      if sc.timestamp > currentTimestampOf s then
        match p.config with
        | some cfg => resetSyncRetry (setConfig s cfg now syncKey)
        | none => incrementSyncRetry s
      else s

/-- What one polling tick read from storage: no stored value (getItem returned
null/empty), a read or parse exception (the catch block only logs), or a
parsed record. -/
inductive PollRead
  | noItem
  | readError
  | item (p : PersistedState)
deriving DecidableEq, Repr

/-- One tick of the polling fallback interval callback: skip when the medium
is unavailable; otherwise compare `parsed.state?.sessionConfig?.timestamp || 0`
against the current timestamp and adopt strictly newer records via setConfig +
resetSyncRetry. A parse/read exception is caught and only logged (state
unchanged); so is the TypeError raised when an adopted record's config is
null. -/
def pollTick (s : StoreState) (r : PollRead) (now : Int) (syncKey : String) : StoreState :=
  if s.storageType = StorageType.unavailable then s
  else
    match r with
    | .noItem => s
    | .readError => s
    | .item p =>
      let newTimestamp :=
        match p.sessionConfig with
        | some sc => sc.timestamp
        | none => 0
      if newTimestamp > currentTimestampOf s then
        match p.config with
        | some cfg => resetSyncRetry (setConfig s cfg now syncKey)
        | none => s
      else s

/-- Operations a storage probe can perform on a medium. -/
inductive StorageOp
  | write
  | read
  | delete
deriving DecidableEq, Repr

/-- Observable behavior of one medium toward the probe: whether setItem
throws, and whether removeItem throws. -/
structure MediumBehavior where
  setItemThrows : Bool
  removeItemThrows : Bool
deriving DecidableEq, Repr

/-- Whether the try-block probe (setItem then removeItem of the sentinel key)
completes without throwing. -/
def probeSucceeds (m : MediumBehavior) : Bool :=
  !m.setItemThrows && !m.removeItemThrows

/-- The operations the probe body actually attempts on a medium: setItem
(write), then — only if that did not throw — removeItem (delete). The source
performs no getItem during the probe. -/
def probeAttemptedOps (m : MediumBehavior) : List StorageOp :=
  if m.setItemThrows then [StorageOp.write] else [StorageOp.write, StorageOp.delete]

/-- getStorageType(): try the localStorage probe; on any throw, try the
sessionStorage probe; on any throw there as well, report unavailable. -/
def getStorageType (loc ses : MediumBehavior) : StorageType :=
  if probeSucceeds loc then StorageType.localStorage
  else if probeSucceeds ses then StorageType.sessionStorage
  else StorageType.unavailable

/-! Backend service (src/unnamed/part_006 = diceConfigService.ts, with
diceConfigValidation.ts and constants/dice/diceDefaults.ts). -/

/-- DICE_DEFAULTS.MIN_SIDES. -/
def MIN_SIDES : ℚ := 2

/-- DICE_DEFAULTS.MAX_SIDES. -/
def MAX_SIDES : ℚ := 1000

/-- DICE_PREDEFINED_OPTIONS.SIDES. -/
def DICE_PREDEFINED_SIDES : List ℚ := [4, 6, 8, 10, 12, 20]

/-- ServiceError as thrown by diceConfigSet: code, message, HTTP status. -/
structure ServiceError where
  code : String
  message : String
  status : Nat
deriving DecidableEq, Repr

/-- setConfigSchema's refinements on diceSides: z.number().int().positive().
Integrality of a JS number is denominator 1 here. -/
abbrev setConfigSchemaOk (v : ℚ) : Prop := v.den = 1 ∧ 0 < v

/-- predefinedSidesSchema: the value is one of DICE_PREDEFINED_OPTIONS.SIDES. -/
abbrev predefinedSidesOk (v : ℚ) : Prop := v ∈ DICE_PREDEFINED_SIDES

/-- customSidesSchema: z.number().int().min(MIN_SIDES).max(MAX_SIDES). -/
abbrev customSidesOk (v : ℚ) : Prop := v.den = 1 ∧ MIN_SIDES ≤ v ∧ v ≤ MAX_SIDES

/-- calculateProbability: probabilityRange [1, sides] and per-face
probability 1/sides. -/
def calculateProbability (sides : ℚ) : ProbabilityRange × ℚ :=
  (⟨1, sides⟩, 1 / sides)

/-- The display label D-prefix string for integral sides (every caller has
already validated integrality, so the numerator is the JS number printed). -/
def displayFormatOf (sides : ℚ) : String :=
  "D" ++ toString sides.num

/-- The success payload diceConfigSet returns: echoed inputs plus the
recomputed derived fields. -/
def diceConfigResponseFor (diceSides : ℚ) (method : SelectionMethod) : DiceConfig :=
  { diceSides := diceSides
    selectionMethod := method
    probabilityRange := (calculateProbability diceSides).1
    individualProbability := (calculateProbability diceSides).2
    displayFormat := displayFormatOf diceSides }

/-- A request body that already passed setConfigSchema's type layer
(diceSides a number, selectionMethod one of the two enum literals); the
schema's int/positive refinements are checked by diceConfigSet itself. -/
structure SetConfigBody where
  diceSides : ℚ
  selectionMethod : SelectionMethod
deriving DecidableEq, Repr

/-- The first failing message of customSidesSchema in chain order
(int, then min, then max), as read from customValidation.error.errors[0]. -/
def customErrorMessageFor (v : ℚ) : String :=
  if v.den ≠ 1 then "Digite apenas números inteiros"
  else if v < MIN_SIDES then "O dado deve ter pelo menos 2 lados"
  else "Máximo de 1000 lados permitido"

/-- diceConfigSet: validate the body against setConfigSchema, then the
method-specific sides schema; throw ServiceError VALIDATION_ERROR / 400 on any
failure, else return the configuration with recomputed derived fields. -/
def diceConfigSet (body : SetConfigBody) : Except ServiceError DiceConfig :=
  if ¬ setConfigSchemaOk body.diceSides then
    Except.error ⟨"VALIDATION_ERROR", "Validation failed", 400⟩
  else
    match body.selectionMethod with
    | .predefined =>
      if ¬ predefinedSidesOk body.diceSides then
        Except.error ⟨"VALIDATION_ERROR", "Dice sides must be one of: 4, 6, 8, 10, 12, 20", 400⟩
      else
        Except.ok (diceConfigResponseFor body.diceSides body.selectionMethod)
    | .custom =>
      if ¬ customSidesOk body.diceSides then
        Except.error ⟨"VALIDATION_ERROR", customErrorMessageFor body.diceSides, 400⟩
      else
        Except.ok (diceConfigResponseFor body.diceSides body.selectionMethod)

/-! diceConfigValidateCustom and its string handling. -/

/-- Validation status enum DICE_VALIDATION_STATUS. -/
inductive ValidationStatus
  | valid
  | invalid
  | pending
deriving DecidableEq, Repr

/-- DiceConfigValidationResult. -/
structure DiceConfigValidationResult where
  isValid : Bool
  status : ValidationStatus
  errorMessage : Option String
  errorPriority : Option Nat
deriving DecidableEq, Repr

/-- A JS string as its character list. -/
abbrev JsStr := List Char

/-- String.prototype.trim: drop whitespace from both ends. -/
def jsTrim (l : JsStr) : JsStr :=
  ((l.dropWhile Char.isWhitespace).reverse.dropWhile Char.isWhitespace).reverse

/-- The test of the anchored digits-only pattern used by the validator:
one or more characters, all in 0-9. -/
def matchesDigitsOnly (l : JsStr) : Bool :=
  !l.isEmpty && l.all Char.isDigit

/-- parseInt(base 10) of a digits-only string: its numeric value (exact; the
only uses compare against 2 and 1000, where double rounding cannot change the
outcome). -/
def parseDigits (l : JsStr) : ℚ :=
  ((l.foldl (fun acc c => 10 * acc + (c.toNat - 48)) 0 : Nat) : ℚ)

/-- The customSides field after the z.union([z.number(), z.string()]) input
schema: a number, a string, or missing/mistyped (schema failure). -/
inductive CustomSidesInput
  | num (v : ℚ)
  | str (s : JsStr)
  | missing
deriving DecidableEq, Repr

def MSG_REQUIRED : String := "Por favor, insira a quantidade de lados"

def MSG_INTEGERS_ONLY : String := "Digite apenas números inteiros"

def MSG_NO_DECIMALS : String := "Digite apenas números inteiros, sem casas decimais"

def MSG_MIN : String := "O dado deve ter pelo menos 2 lados"

def MSG_MAX : String := "Máximo de 1000 lados permitido"

/-- An invalid DiceConfigValidationResult with the given message/priority. -/
def invalidResult (msg : String) (priority : Nat) : DiceConfigValidationResult :=
  { isValid := false
    status := ValidationStatus.invalid
    errorMessage := some msg
    errorPriority := some priority }

/-- The valid DiceConfigValidationResult (no message, no priority). -/
def validResult : DiceConfigValidationResult :=
  { isValid := true
    status := ValidationStatus.valid
    errorMessage := none
    errorPriority := none }

/-- The shared numeric tail of diceConfigValidateCustom (the isNaN,
Number.isInteger, and range checks). Rationals have no NaN, so the isNaN
check never fires (z.number() rejects NaN, and parseInt of a digits-only
string is a number); Number.isInteger is denominator 1. -/
def validateNumericValue (v : ℚ) : DiceConfigValidationResult :=
  if v.den ≠ 1 then invalidResult MSG_NO_DECIMALS 1
  else if v < MIN_SIDES then invalidResult MSG_MIN 2
  else if v > MAX_SIDES then invalidResult MSG_MAX 2
  else validResult

/-- diceConfigValidateCustom: missing/mistyped input is a priority-2
presence error; a string is first checked for emptiness after trim
(priority 2), then for '.' or ',' (priority 1), then against the digits-only
pattern (priority 1), and only then parsed and range-checked; a number goes
straight to the numeric tail. -/
def diceConfigValidateCustom (input : CustomSidesInput) : DiceConfigValidationResult :=
  match input with
  | .missing => invalidResult MSG_REQUIRED 2
  | .num v => validateNumericValue v
  | .str s =>
    if jsTrim s = [] then invalidResult MSG_REQUIRED 2
    else if s.contains '.' || s.contains ',' then invalidResult MSG_NO_DECIMALS 1
    else if ¬ matchesDigitsOnly s then invalidResult MSG_INTEGERS_ONLY 1
    else validateNumericValue (parseDigits s)

/-- A write operation this tab can perform on the stored SessionMetadata:
a setConfig call (with the generateSyncKey() value drawn at that call) or an
updateSessionConfig call. -/
inductive WriteOp
  | setC (cfg : DiceConfig) (syncKey : String)
  | updateSC (u : SessionConfigUpdate)
deriving DecidableEq, Repr

/-- Apply one write operation at clock reading `now` (the Date.now() value at
that call). -/
def applyWrite (s : StoreState) (w : WriteOp) (now : Int) : StoreState :=
  match w with
  | .setC cfg k => setConfig s cfg now k
  | .updateSC u => updateSessionConfig s u now

/-! Concrete values used by the claim instances. -/

/-- A D20 predefined configuration (the diceConfigSet response for 20). -/
def cfgD20 : DiceConfig :=
  { diceSides := 20
    selectionMethod := SelectionMethod.predefined
    probabilityRange := ⟨1, 20⟩
    individualProbability := ⟨1, 20, by decide, Nat.coprime_one_left 20⟩
    displayFormat := "D20" }

/-- A D8 predefined configuration (the diceConfigSet response for 8). -/
def cfgD8 : DiceConfig :=
  { diceSides := 8
    selectionMethod := SelectionMethod.predefined
    probabilityRange := ⟨1, 8⟩
    individualProbability := ⟨1, 8, by decide, Nat.coprime_one_left 8⟩
    displayFormat := "D8" }

def sampleDecimalInput : JsStr := "12.5".toList

def sampleOneInput : JsStr := "1".toList

def sampleTwentyInput : JsStr := "20".toList

def sampleFiveHundredInput : JsStr := "500".toList

def keyZero : String := "k0"

def keyOne : String := "k1"

def keyA : String := "a"

def keyB : String := "b"

def keyP : String := "kp"

/-- The tab state right after setConfiguration of a D20 at clock 1000. -/
def sTab : StoreState :=
  setConfig (initialState StorageType.localStorage) cfgD20 1000 keyZero

/-- The tab state right after setConfiguration of a D20 at clock 5000. -/
def sTab5000 : StoreState :=
  setConfig (initialState StorageType.localStorage) cfgD20 5000 keyZero

/-- A persisted record carrying a D8 stamped 6000. -/
def recD8at6000 : PersistedState :=
  ⟨some cfgD8, some ⟨8, SelectionMethod.predefined, 6000, StorageType.localStorage, keyB⟩⟩

/-- A persisted record carrying a D8 stamped 4000. -/
def recD8at4000 : PersistedState :=
  ⟨some cfgD8, some ⟨8, SelectionMethod.predefined, 4000, StorageType.localStorage, keyB⟩⟩

/-- A persisted record carrying a D8 stamped 5000 (ahead of the clock
readings 2000/2100 at which the tab below handles it). -/
def futureRecord : PersistedState :=
  ⟨some cfgD8, some ⟨8, SelectionMethod.predefined, 5000, StorageType.localStorage, keyP⟩⟩

/-- A persisted record carrying a D8 stamped 1500 (in the past of the clock
readings 2000/2100 at which the tab below handles it). -/
def pastRecord : PersistedState :=
  ⟨some cfgD8, some ⟨8, SelectionMethod.predefined, 1500, StorageType.localStorage, keyP⟩⟩

/-- The load-time clock of the expiry examples: 100 hours in ms. -/
def hNow : Int := 100 * 60 * 60 * 1000

/-- A restored SessionMetadata stamped 25 hours before hNow. -/
def sc25 : SessionConfig :=
  ⟨20, SelectionMethod.predefined, hNow - 25 * 60 * 60 * 1000, StorageType.localStorage, keyZero⟩

/-- A restored SessionMetadata stamped 23 hours before hNow. -/
def sc23 : SessionConfig :=
  ⟨20, SelectionMethod.predefined, hNow - 23 * 60 * 60 * 1000, StorageType.localStorage, keyZero⟩

/-- A rehydrated store holding sc25. -/
def hydrated25 : StoreState :=
  { config := some cfgD20
    sessionConfig := some sc25
    storageType := StorageType.localStorage
    syncRetryCount := 0
    pollingActive := false }

/-- A rehydrated store holding sc23. -/
def hydrated23 : StoreState :=
  { config := some cfgD20
    sessionConfig := some sc23
    storageType := StorageType.localStorage
    syncRetryCount := 0
    pollingActive := false }

/-- The SessionMetadata stored by a first write (D20 at clock 1000). -/
def scW1 : SessionConfig :=
  ⟨20, SelectionMethod.predefined, 1000, StorageType.localStorage, keyA⟩

/-- The SessionMetadata stored by a second write (D8 at clock 2000). -/
def scW2 : SessionConfig :=
  ⟨8, SelectionMethod.predefined, 2000, StorageType.localStorage, keyB⟩

/-- The body-level failure condition exactly as the claim words it
(spec-side definition, to be compared against the source's diceConfigSet). -/
abbrev specFailsValidation (b : SetConfigBody) : Prop :=
  (b.selectionMethod = SelectionMethod.predefined ∧ b.diceSides ∉ DICE_PREDEFINED_SIDES) ∨
  (b.selectionMethod = SelectionMethod.custom ∧
    ¬ (b.diceSides.den = 1 ∧ 2 ≤ b.diceSides ∧ b.diceSides ≤ 1000))

/-! Helper lemmas shared by the claim theorems. -/

/-- A write that leaves a SessionMetadata in the store stamped it with the
Date.now() reading of that write. -/
theorem applyWrite_sessionTimestamp (s : StoreState) (w : WriteOp) (now : Int)
    (sc : SessionConfig) (h : (applyWrite s w now).sessionConfig = some sc) :
    sc.timestamp = now := by
  cases w with
  | setC cfg k =>
    simp only [applyWrite, setConfig, Option.some.injEq] at h
    rw [← h]
  | updateSC u =>
    cases hcur : s.sessionConfig with
    | none => simp [applyWrite, updateSessionConfig, hcur] at h
    | some cur =>
      simp only [applyWrite, updateSessionConfig, hcur, Option.some.injEq] at h
      rw [← h]

/-- The current-timestamp read when a sessionConfig is present. -/
theorem currentTimestampOf_eq (s : StoreState) (cur : SessionConfig)
    (h : s.sessionConfig = some cur) : currentTimestampOf s = cur.timestamp := by
  simp [currentTimestampOf, h]

/-- A digit character is not whitespace. -/
theorem isDigit_not_whitespace (c : Char) (h : c.isDigit = true) :
    c.isWhitespace = false := by
  rcases Bool.eq_false_or_eq_true c.isWhitespace with hw | hw
  · exfalso
    have hw' : ((c = ' ' ∨ c = '\t') ∨ c = '\r') ∨ c = '\n' := by
      simpa [Char.isWhitespace] using hw
    rw [or_assoc, or_assoc] at hw'
    rcases hw' with rfl | rfl | rfl | rfl <;> exact absurd h (by decide)
  · exact hw

/-- dropWhile by a predicate false on every element is the identity. -/
theorem dropWhile_eq_self_of_none (l : JsStr) (h : ∀ c ∈ l, c.isWhitespace = false) :
    l.dropWhile Char.isWhitespace = l := by
  cases l with
  | nil => rfl
  | cons a t =>
    have ha := h a (List.mem_cons_self a t)
    simp [List.dropWhile_cons, ha]

/-- Trimming a digits-only string changes nothing. -/
theorem jsTrim_of_digits (l : JsStr) (h : l.all Char.isDigit = true) : jsTrim l = l := by
  have hmem : ∀ c ∈ l, c.isWhitespace = false := by
    intro c hc
    exact isDigit_not_whitespace c (List.all_eq_true.mp h c hc)
  have h1 : l.dropWhile Char.isWhitespace = l := dropWhile_eq_self_of_none l hmem
  have hmem2 : ∀ c ∈ l.reverse, c.isWhitespace = false := by
    intro c hc
    exact hmem c (List.mem_reverse.mp hc)
  have h2 : l.reverse.dropWhile Char.isWhitespace = l.reverse :=
    dropWhile_eq_self_of_none l.reverse hmem2
  simp [jsTrim, h1, h2]

/-- A digits-only string contains no non-digit character. -/
theorem not_contains_of_digits (l : JsStr) (h : l.all Char.isDigit = true)
    (c : Char) (hc : c.isDigit = false) : l.contains c = false := by
  rcases Bool.eq_false_or_eq_true (l.contains c) with h0 | h0
  · exfalso
    have hmem : c ∈ l := by simpa using h0
    have hd := List.all_eq_true.mp h c hmem
    rw [hc] at hd
    exact Bool.false_ne_true hd
  · exact h0

/-- The value parsed from a digits-only string is a natural number, so its
denominator is 1. -/
theorem parseDigits_den (l : JsStr) : (parseDigits l).den = 1 := by
  unfold parseDigits
  exact Rat.den_natCast _

/-! Claim theorems. -/

/-- C4: starting from failure counter 0 and polling-active false, one or two
incrementSyncRetry calls leave pollingActive false; the third consecutive call
sets pollingActive true (counter 3); resetSyncRetry returns counter 0 and
polling off, so two failures followed by a reset leave pollingActive false and
the counter at 0. -/
theorem syncRetry_escalation_policy (s : StoreState)
    (h0 : s.syncRetryCount = 0) (hp : s.pollingActive = false) :
    (incrementSyncRetry s).pollingActive = false ∧
    (incrementSyncRetry (incrementSyncRetry s)).pollingActive = false ∧
    (incrementSyncRetry (incrementSyncRetry (incrementSyncRetry s))).pollingActive = true ∧
    (incrementSyncRetry (incrementSyncRetry (incrementSyncRetry s))).syncRetryCount = 3 ∧
    (resetSyncRetry (incrementSyncRetry (incrementSyncRetry s))).pollingActive = false ∧
    (resetSyncRetry (incrementSyncRetry (incrementSyncRetry s))).syncRetryCount = 0 := by
  simp [incrementSyncRetry, resetSyncRetry, h0, hp]

/-- Witness for C4 at the initial store state. -/
theorem syncRetry_escalation_policy_witness :
    (incrementSyncRetry (incrementSyncRetry (incrementSyncRetry
      (initialState StorageType.localStorage)))).pollingActive = true :=
  (syncRetry_escalation_policy (initialState StorageType.localStorage) rfl rfl).2.2.1

/-- C9: a malformed payload is never raised to the caller. The notification
handler maps a parse failure to incrementSyncRetry — the failure counter grows
by one while config and sessionConfig are untouched — and a polling tick's
read/parse error leaves the entire store state unchanged (no counter change). -/
theorem malformed_payload_handling (s : StoreState) (now : Int) (k : String) :
    onStorageEvent s StorageNotification.parseError now k = incrementSyncRetry s ∧
    (onStorageEvent s StorageNotification.parseError now k).syncRetryCount =
      s.syncRetryCount + 1 ∧
    (onStorageEvent s StorageNotification.parseError now k).config = s.config ∧
    (onStorageEvent s StorageNotification.parseError now k).sessionConfig = s.sessionConfig ∧
    pollTick s PollRead.readError now k = s := by
  refine ⟨rfl, ?_, ?_, ?_, ?_⟩
  · simp only [onStorageEvent, incrementSyncRetry]
    split <;> rfl
  · simp only [onStorageEvent, incrementSyncRetry]
    split <;> rfl
  · simp only [onStorageEvent, incrementSyncRetry]
    split <;> rfl
  · simp only [pollTick]
    split <;> rfl

/-- C10: a storage notification that parses but carries no SessionMetadata —
a null newValue, or any record whose sessionConfig is null, in particular the
record another tab's clearConfig persists — leaves the entire store state
unchanged (hence no counter increment, and a clear in one tab is never
propagated to others). -/
theorem notification_without_metadata_ignored (s : StoreState) (now : Int) (k : String) :
    onStorageEvent s (StorageNotification.payload none) now k = s ∧
    (∀ p : PersistedState, p.sessionConfig = none →
      onStorageEvent s (StorageNotification.payload (some p)) now k = s) ∧
    (∀ t : StoreState,
      onStorageEvent s (StorageNotification.payload (some (toPersisted (clearConfig t)))) now k
        = s) := by
  refine ⟨rfl, ?_, ?_⟩
  · intro p hp
    obtain ⟨pc, psc⟩ := p
    cases psc with
    | none => rfl
    | some sc => simp at hp
  · intro t
    rfl

/-- Witness for C10: a record holding a config but a null sessionConfig is
ignored by the handler. -/
theorem notification_without_metadata_ignored_witness :
    onStorageEvent sTab (StorageNotification.payload (some ⟨some cfgD8, none⟩)) 2000 keyA
      = sTab :=
  (notification_without_metadata_ignored sTab 2000 keyA).2.1 ⟨some cfgD8, none⟩ rfl

/-- C6 counterexample: the probe of a fully functional medium performs a
write and a delete of the sentinel key but never a read, so the probe order
is not write-read-delete as claimed. -/
theorem storage_probe_performs_no_read :
    probeAttemptedOps ⟨false, false⟩ = [StorageOp.write, StorageOp.delete] ∧
    decide (StorageOp.read ∈ probeAttemptedOps ⟨false, false⟩) = false := by
  exact ⟨rfl, by decide⟩

/-- C6 (amended): the medium probe writes and then deletes a sentinel key and
performs no read. If the primary (localStorage) probe completes, the primary
medium is selected; if the primary setItem throws and the fallback probe
completes, the fallback (sessionStorage) medium is selected; if both probes
throw, unavailable is selected. -/
theorem selectActiveStorageMedium_fallback (loc ses : MediumBehavior) :
    (probeSucceeds loc = true → getStorageType loc ses = StorageType.localStorage) ∧
    (loc.setItemThrows = true → probeSucceeds ses = true →
      getStorageType loc ses = StorageType.sessionStorage) ∧
    (probeSucceeds loc = false → probeSucceeds ses = false →
      getStorageType loc ses = StorageType.unavailable) ∧
    StorageOp.read ∉ probeAttemptedOps loc := by
  obtain ⟨lw, lr⟩ := loc
  obtain ⟨sw, sr⟩ := ses
  cases lw <;> cases lr <;> cases sw <;> cases sr <;> exact (by decide)

/-- Witness for C6: primary write throws, fallback works: sessionStorage. -/
theorem selectActiveStorageMedium_fallback_witness :
    getStorageType ⟨true, false⟩ ⟨false, false⟩ = StorageType.sessionStorage :=
  (selectActiveStorageMedium_fallback ⟨true, false⟩ ⟨false, false⟩).2.1 rfl rfl

/-- C1: an inbound record carrying a configuration — a cross-tab storage
notification, or a polling read (which only happens when the medium is not
unavailable) — is adopted iff its sessionConfig timestamp is strictly greater
than the current tab's timestamp: on adoption the handler runs setConfig with
the record's configuration followed by resetSyncRetry, so the local config
becomes the record's; otherwise the state is unchanged. Concretely, after
setConfiguration of a D20 at clock 5000, a notification carrying a D8 stamped
5000+1000 yields local sides 8, while one stamped 5000-1000 is ignored and the
local state stays at sides 20. -/
theorem reconciliation_strictly_newer_wins :
    (∀ (s : StoreState) (cur sc : SessionConfig) (p : PersistedState) (cfg : DiceConfig)
        (now : Int) (k : String),
      s.sessionConfig = some cur → p.config = some cfg → p.sessionConfig = some sc →
      (sc.timestamp > cur.timestamp →
        onStorageEvent s (StorageNotification.payload (some p)) now k =
          resetSyncRetry (setConfig s cfg now k) ∧
        (onStorageEvent s (StorageNotification.payload (some p)) now k).config = some cfg) ∧
      (¬ sc.timestamp > cur.timestamp →
        onStorageEvent s (StorageNotification.payload (some p)) now k = s)) ∧
    (∀ (s : StoreState) (cur sc : SessionConfig) (p : PersistedState) (cfg : DiceConfig)
        (now : Int) (k : String),
      s.storageType ≠ StorageType.unavailable →
      s.sessionConfig = some cur → p.config = some cfg → p.sessionConfig = some sc →
      (sc.timestamp > cur.timestamp →
        pollTick s (PollRead.item p) now k = resetSyncRetry (setConfig s cfg now k) ∧
        (pollTick s (PollRead.item p) now k).config = some cfg) ∧
      (¬ sc.timestamp > cur.timestamp → pollTick s (PollRead.item p) now k = s)) ∧
    (onStorageEvent sTab5000 (StorageNotification.payload (some recD8at6000)) 6100 keyOne).config
      = some cfgD8 ∧
    onStorageEvent sTab5000 (StorageNotification.payload (some recD8at4000)) 6100 keyOne
      = sTab5000 ∧
    (onStorageEvent sTab5000 (StorageNotification.payload (some recD8at4000)) 6100 keyOne).config
      = some cfgD20 := by
  refine ⟨?_, ?_, by decide, by decide, by decide⟩
  · intro s cur sc p cfg now k hcur hc hsc
    have hct := currentTimestampOf_eq s cur hcur
    constructor
    · intro hgt
      have he : onStorageEvent s (StorageNotification.payload (some p)) now k
          = resetSyncRetry (setConfig s cfg now k) := by
        simp [onStorageEvent, hsc, hc, hct, hgt]
      exact ⟨he, by rw [he]; rfl⟩
    · intro hng
      simp [onStorageEvent, hsc, hc, hct, hng]
  · intro s cur sc p cfg now k hst hcur hc hsc
    have hct := currentTimestampOf_eq s cur hcur
    constructor
    · intro hgt
      have he : pollTick s (PollRead.item p) now k
          = resetSyncRetry (setConfig s cfg now k) := by
        simp [pollTick, hst, hsc, hc, hct, hgt]
      exact ⟨he, by rw [he]; rfl⟩
    · intro hng
      simp [pollTick, hst, hsc, hc, hct, hng]

/-- Witness for C1: a strictly newer notification is adopted. -/
theorem reconciliation_strictly_newer_wins_witness :
    onStorageEvent sTab5000 (StorageNotification.payload (some recD8at6000)) 6100 keyOne =
      resetSyncRetry (setConfig sTab5000 cfgD8 6100 keyOne) :=
  ((reconciliation_strictly_newer_wins.1 sTab5000
      ⟨20, SelectionMethod.predefined, 5000, StorageType.localStorage, keyZero⟩
      ⟨8, SelectionMethod.predefined, 6000, StorageType.localStorage, keyB⟩
      recD8at6000 cfgD8 6100 keyOne rfl rfl rfl).1 (by decide)).1

/-- C2 counterexample: a record stamped ahead of the adopting tab's clock
(timestamp 5000, handled at clocks 2000 and 2100) is adopted again by a second
application of the very same payload, which refreshes the local sessionConfig
timestamp and syncKey — the state after the second application differs from
the state after the first. -/
theorem reconcile_second_application_changes_state :
    decide (onStorageEvent
        (onStorageEvent sTab (StorageNotification.payload (some futureRecord)) 2000 keyA)
        (StorageNotification.payload (some futureRecord)) 2100 keyB =
      onStorageEvent sTab (StorageNotification.payload (some futureRecord)) 2000 keyA)
      = false := by
  decide

/-- C2 (amended): reconciliation is idempotent for every payload that carries
a configuration and whose timestamp does not exceed the tab's clock at the
first application: re-applying the same payload afterwards, at any later clock
and with any fresh syncKey, leaves the store state unchanged. -/
theorem reconcile_idempotent_for_past_records (s : StoreState) (p : PersistedState)
    (cfg : DiceConfig) (sc : SessionConfig) (now1 now2 : Int) (k1 k2 : String)
    (hc : p.config = some cfg) (hsc : p.sessionConfig = some sc)
    (hpast : sc.timestamp ≤ now1) :
    onStorageEvent (onStorageEvent s (StorageNotification.payload (some p)) now1 k1)
        (StorageNotification.payload (some p)) now2 k2 =
      onStorageEvent s (StorageNotification.payload (some p)) now1 k1 := by
  by_cases h1 : sc.timestamp > currentTimestampOf s
  · have e1 : onStorageEvent s (StorageNotification.payload (some p)) now1 k1
        = resetSyncRetry (setConfig s cfg now1 k1) := by
      simp [onStorageEvent, hsc, hc, h1]
    rw [e1]
    have hcur2 : currentTimestampOf (resetSyncRetry (setConfig s cfg now1 k1)) = now1 := rfl
    have h2 : ¬ sc.timestamp > currentTimestampOf (resetSyncRetry (setConfig s cfg now1 k1)) := by
      rw [hcur2]
      exact not_lt.mpr hpast
    simp [onStorageEvent, hsc, hc, h2]
  · have e1 : onStorageEvent s (StorageNotification.payload (some p)) now1 k1 = s := by
      simp [onStorageEvent, hsc, h1]
    rw [e1]
    simp [onStorageEvent, hsc, h1]

/-- Witness for C2 (amended): a past-stamped record applied twice. -/
theorem reconcile_idempotent_for_past_records_witness :
    onStorageEvent (onStorageEvent sTab (StorageNotification.payload (some pastRecord)) 2000 keyA)
        (StorageNotification.payload (some pastRecord)) 2100 keyB =
      onStorageEvent sTab (StorageNotification.payload (some pastRecord)) 2000 keyA :=
  reconcile_idempotent_for_past_records sTab pastRecord cfgD8
    ⟨8, SelectionMethod.predefined, 1500, StorageType.localStorage, keyP⟩ 2000 2100 keyA keyB
    rfl rfl (by decide)

/-- C3: on rehydration a stored record is expired exactly when now − timestamp
strictly exceeds 24 hours in milliseconds; an expired record is cleared (both
config and sessionConfig become none) while a non-expired one is retained
(config unchanged, sessionConfig still present with the same sides and
method). Concretely, at load clock hNow a record stamped 25 hours earlier is
cleared and one stamped 23 hours earlier is kept. -/
theorem rehydrate_expiry_policy :
    (∀ (s : StoreState) (sc : SessionConfig) (now updTime : Int) (probed : StorageType),
      s.sessionConfig = some sc →
      (isSessionExpired now sc.timestamp = true ↔ now - sc.timestamp > SESSION_EXPIRY_MS) ∧
      (now - sc.timestamp > SESSION_EXPIRY_MS →
        onRehydrate s now probed updTime = clearConfig s ∧
        (onRehydrate s now probed updTime).config = none ∧
        (onRehydrate s now probed updTime).sessionConfig = none) ∧
      (¬ now - sc.timestamp > SESSION_EXPIRY_MS →
        (onRehydrate s now probed updTime).config = s.config ∧
        ∃ sc2, (onRehydrate s now probed updTime).sessionConfig = some sc2 ∧
          sc2.diceSides = sc.diceSides ∧ sc2.selectionMethod = sc.selectionMethod)) ∧
    (onRehydrate hydrated25 hNow StorageType.localStorage hNow).config = none ∧
    (onRehydrate hydrated25 hNow StorageType.localStorage hNow).sessionConfig = none ∧
    (onRehydrate hydrated23 hNow StorageType.localStorage hNow).config = some cfgD20 ∧
    (onRehydrate hydrated23 hNow StorageType.localStorage hNow).sessionConfig = some sc23 := by
  refine ⟨?_, by decide, by decide, by decide, by decide⟩
  intro s sc now updTime probed hsc
  have hexp_iff : isSessionExpired now sc.timestamp = true
      ↔ now - sc.timestamp > SESSION_EXPIRY_MS := by
    simp [isSessionExpired]
  refine ⟨hexp_iff, ?_, ?_⟩
  · intro hexp
    have hb : isSessionExpired now sc.timestamp = true := hexp_iff.mpr hexp
    have he : onRehydrate s now probed updTime = clearConfig s := by
      simp [onRehydrate, hsc, hb]
    exact ⟨he, by rw [he]; rfl, by rw [he]; rfl⟩
  · intro hnexp
    have hb : isSessionExpired now sc.timestamp = false := by
      rcases Bool.eq_false_or_eq_true (isSessionExpired now sc.timestamp) with h | h
      · exact absurd (hexp_iff.mp h) hnexp
      · exact h
    by_cases hstp : sc.storageType ≠ probed
    · have he : onRehydrate s now probed updTime =
          updateSessionConfig (setStorageType s probed)
            { diceSides := none
              selectionMethod := none
              timestamp := none
              storageType := some probed
              syncKey := none } updTime := by
        simp [onRehydrate, hsc, hb, hstp]
      rw [he]
      have hscset : (setStorageType s probed).sessionConfig = some sc := hsc
      refine ⟨?_, ⟨{ diceSides := sc.diceSides
                     selectionMethod := sc.selectionMethod
                     timestamp := updTime
                     storageType := probed
                     syncKey := sc.syncKey }, ?_, rfl, rfl⟩⟩
      · simp [updateSessionConfig, setStorageType, hsc]
      · simp [updateSessionConfig, setStorageType, hsc]
    · have he : onRehydrate s now probed updTime = s := by
        simp [onRehydrate, hsc, hb, hstp]
      rw [he]
      exact ⟨rfl, sc, hsc, rfl, rfl⟩

/-- Witness for C3: the 23-hour-old record is retained on load. -/
theorem rehydrate_expiry_policy_witness :
    (onRehydrate hydrated23 hNow StorageType.localStorage hNow).config = hydrated23.config :=
  ((rehydrate_expiry_policy.1 hydrated23 sc23 hNow hNow StorageType.localStorage rfl).2.2
    (by decide)).1

/-- C5 counterexample: two writes within the same clock millisecond
(Date.now() = 1000 at both) store equal timestamps, so the timestamp after the
second write is not strictly greater than after the first. -/
theorem write_timestamp_not_strict_same_ms :
    decide
      (((applyWrite (applyWrite (initialState StorageType.localStorage)
            (WriteOp.setC cfgD20 keyA) 1000)
          (WriteOp.setC cfgD8 keyB) 1000).sessionConfig.map SessionConfig.timestamp).getD 0 >
        ((applyWrite (initialState StorageType.localStorage)
            (WriteOp.setC cfgD20 keyA) 1000).sessionConfig.map SessionConfig.timestamp).getD 0)
      = false := by
  decide

/-- C5 (amended): every write that leaves a SessionMetadata stamps it with the
Date.now() reading of that write, so across two consecutive writes from one
tab the stored timestamp is strictly greater exactly when the clock strictly
advanced between them; two writes at the same clock reading store equal
timestamps. -/
theorem write_timestamp_tracks_clock (s : StoreState) (w1 w2 : WriteOp) (now1 now2 : Int)
    (sc1 sc2 : SessionConfig)
    (h1 : (applyWrite s w1 now1).sessionConfig = some sc1)
    (h2 : (applyWrite (applyWrite s w1 now1) w2 now2).sessionConfig = some sc2) :
    sc1.timestamp = now1 ∧ sc2.timestamp = now2 ∧
      (now1 < now2 → sc1.timestamp < sc2.timestamp) := by
  have e1 := applyWrite_sessionTimestamp s w1 now1 sc1 h1
  have e2 := applyWrite_sessionTimestamp (applyWrite s w1 now1) w2 now2 sc2 h2
  refine ⟨e1, e2, ?_⟩
  intro hlt
  rw [e1, e2]
  exact hlt

/-- Witness for C5 (amended): two writes at clocks 1000 and 2000. -/
theorem write_timestamp_tracks_clock_witness :
    scW1.timestamp = 1000 ∧ scW2.timestamp = 2000 ∧
      ((1000 : Int) < 2000 → scW1.timestamp < scW2.timestamp) :=
  write_timestamp_tracks_clock (initialState StorageType.localStorage)
    (WriteOp.setC cfgD20 keyA) (WriteOp.setC cfgD8 keyB) 1000 2000 scW1 scW2 rfl rfl

/-- A digits-only string has no non-digit member. -/
theorem not_mem_of_digits (l : JsStr) (h : l.all Char.isDigit = true) (c : Char)
    (hc : c.isDigit = false) : c ∉ l := by
  intro hm
  have hd := List.all_eq_true.mp h c hm
  rw [hc] at hd
  exact Bool.false_ne_true hd

/-- A string matching the digits-only pattern is non-empty and all digits. -/
theorem matchesDigitsOnly_parts (s : JsStr) (h : matchesDigitsOnly s = true) :
    s ≠ [] ∧ s.all Char.isDigit = true := by
  have h' : s.isEmpty = false ∧ s.all Char.isDigit = true := by
    simpa [matchesDigitsOnly] using h
  refine ⟨?_, h'.2⟩
  cases s with
  | nil => simp at h'
  | cons a t => simp

/-- C7: custom-sides validation returns priority-1 errors for format
violations and priority-2 errors for presence/range violations over [2,1000]:
the string 12.5 yields isValid false with errorPriority 1, the string 1 yields
isValid false with errorPriority 2, the string 20 is valid; in general a
digits-only string whose value lies in [2,1000] is valid, an out-of-range
digits-only string gets priority 2, and a non-empty-after-trim string that is
not digits-only gets priority 1. -/
theorem diceConfigValidateCustom_priorities :
    ((diceConfigValidateCustom (CustomSidesInput.str sampleDecimalInput)).isValid = false ∧
      (diceConfigValidateCustom (CustomSidesInput.str sampleDecimalInput)).errorPriority
        = some 1) ∧
    ((diceConfigValidateCustom (CustomSidesInput.str sampleOneInput)).isValid = false ∧
      (diceConfigValidateCustom (CustomSidesInput.str sampleOneInput)).errorPriority = some 2) ∧
    (diceConfigValidateCustom (CustomSidesInput.str sampleTwentyInput)).isValid = true ∧
    (∀ s : JsStr, matchesDigitsOnly s = true →
      MIN_SIDES ≤ parseDigits s → parseDigits s ≤ MAX_SIDES →
      diceConfigValidateCustom (CustomSidesInput.str s) = validResult) ∧
    (∀ s : JsStr, matchesDigitsOnly s = true →
      (parseDigits s < MIN_SIDES ∨ MAX_SIDES < parseDigits s) →
      (diceConfigValidateCustom (CustomSidesInput.str s)).isValid = false ∧
      (diceConfigValidateCustom (CustomSidesInput.str s)).errorPriority = some 2) ∧
    (∀ s : JsStr, jsTrim s ≠ [] → matchesDigitsOnly s = false →
      (diceConfigValidateCustom (CustomSidesInput.str s)).isValid = false ∧
      (diceConfigValidateCustom (CustomSidesInput.str s)).errorPriority = some 1) := by
  refine ⟨by decide, by decide, by decide, ?_, ?_, ?_⟩
  · intro s hd hlo hhi
    obtain ⟨hnil, hall⟩ := matchesDigitsOnly_parts s hd
    have htrim : jsTrim s = s := jsTrim_of_digits s hall
    have hdm : '.' ∉ s := not_mem_of_digits s hall '.' (by decide)
    have hcm : ',' ∉ s := not_mem_of_digits s hall ',' (by decide)
    have hden := parseDigits_den s
    have hlo' : ¬ parseDigits s < MIN_SIDES := not_lt.mpr hlo
    have hhi' : ¬ parseDigits s > MAX_SIDES := not_lt.mpr hhi
    simp [diceConfigValidateCustom, htrim, hnil, hdm, hcm, hd, validateNumericValue,
      hden, hlo', hhi']
  · intro s hd hrange
    obtain ⟨hnil, hall⟩ := matchesDigitsOnly_parts s hd
    have htrim : jsTrim s = s := jsTrim_of_digits s hall
    have hdm : '.' ∉ s := not_mem_of_digits s hall '.' (by decide)
    have hcm : ',' ∉ s := not_mem_of_digits s hall ',' (by decide)
    have hden := parseDigits_den s
    rcases hrange with hlt | hgt
    · constructor <;>
        simp [diceConfigValidateCustom, htrim, hnil, hdm, hcm, hd, validateNumericValue,
          hden, hlt, invalidResult]
    · have hge : MIN_SIDES ≤ parseDigits s :=
        le_trans (by norm_num [MIN_SIDES, MAX_SIDES]) (le_of_lt hgt)
      have hnlt : ¬ parseDigits s < MIN_SIDES := not_lt.mpr hge
      constructor <;>
        simp [diceConfigValidateCustom, htrim, hnil, hdm, hcm, hd, validateNumericValue,
          hden, hnlt, hgt, invalidResult]
  · intro s htr hnd
    by_cases hdm : '.' ∈ s
    · constructor <;> simp [diceConfigValidateCustom, htr, hdm, invalidResult]
    · by_cases hcm : ',' ∈ s
      · constructor <;> simp [diceConfigValidateCustom, htr, hdm, hcm, invalidResult]
      · constructor <;> simp [diceConfigValidateCustom, htr, hdm, hcm, hnd, invalidResult]

/-- Witness for C7: the digits-only string 500 is in range and valid. -/
theorem diceConfigValidateCustom_priorities_witness :
    diceConfigValidateCustom (CustomSidesInput.str sampleFiveHundredInput) = validResult :=
  diceConfigValidateCustom_priorities.2.2.2.1 sampleFiveHundredInput (by decide) (by decide)
    (by decide)

/-- C8: diceConfigSet throws a ServiceError iff the body fails validation —
selectionMethod predefined with diceSides outside 4, 6, 8, 10, 12, 20, or
custom with diceSides not an integer in [2,1000] — and every thrown error
carries code VALIDATION_ERROR and HTTP status 400; otherwise it returns the
configuration with the recomputed derived fields: probabilityRange min 1 and
max diceSides, individualProbability 1/diceSides, and the D-prefixed display
label. -/
theorem diceConfigSet_validation (b : SetConfigBody) :
    ((∃ e, diceConfigSet b = Except.error e) ↔ specFailsValidation b) ∧
    (∀ e, diceConfigSet b = Except.error e → e.code = "VALIDATION_ERROR" ∧ e.status = 400) ∧
    (¬ specFailsValidation b →
      diceConfigSet b = Except.ok (diceConfigResponseFor b.diceSides b.selectionMethod) ∧
      diceConfigResponseFor b.diceSides b.selectionMethod =
        { diceSides := b.diceSides
          selectionMethod := b.selectionMethod
          probabilityRange := ⟨1, b.diceSides⟩
          individualProbability := 1 / b.diceSides
          displayFormat := displayFormatOf b.diceSides }) := by
  have hmem_schema : ∀ v : ℚ, v ∈ DICE_PREDEFINED_SIDES → setConfigSchemaOk v := by
    intro v hv
    simp [DICE_PREDEFINED_SIDES] at hv
    rcases hv with rfl | rfl | rfl | rfl | rfl | rfl <;> exact ⟨by decide, by decide⟩
  obtain ⟨d, m⟩ := b
  cases m with
  | predefined =>
    by_cases hs : setConfigSchemaOk d
    · by_cases hm : predefinedSidesOk d
      · have he : diceConfigSet ⟨d, SelectionMethod.predefined⟩ =
            Except.ok (diceConfigResponseFor d SelectionMethod.predefined) := by
          simp [diceConfigSet, hs, hm]
        refine ⟨⟨?_, ?_⟩, ?_, ?_⟩
        · rintro ⟨e, hee⟩
          rw [he] at hee
          exact absurd hee (by simp)
        · intro hsf
          rcases hsf with ⟨-, hnm⟩ | ⟨hcm, -⟩
          · exact absurd hm hnm
          · exact absurd hcm (by simp)
        · intro e hee
          rw [he] at hee
          exact absurd hee (by simp)
        · intro hn
          exact ⟨he, rfl⟩
      · have he : diceConfigSet ⟨d, SelectionMethod.predefined⟩ =
            Except.error
              ⟨"VALIDATION_ERROR", "Dice sides must be one of: 4, 6, 8, 10, 12, 20", 400⟩ := by
          simp [diceConfigSet, hs, hm]
        refine ⟨⟨fun _ => Or.inl ⟨rfl, hm⟩, fun _ => ⟨_, he⟩⟩, ?_, ?_⟩
        · intro e hee
          rw [he] at hee
          injection hee with h
          subst h
          exact ⟨rfl, rfl⟩
        · intro hn
          exact absurd (Or.inl ⟨rfl, hm⟩) hn
    · have he : diceConfigSet ⟨d, SelectionMethod.predefined⟩ =
          Except.error ⟨"VALIDATION_ERROR", "Validation failed", 400⟩ := by
        simp [diceConfigSet, hs]
      have hnm : ¬ predefinedSidesOk d := fun hm => hs (hmem_schema d hm)
      refine ⟨⟨fun _ => Or.inl ⟨rfl, hnm⟩, fun _ => ⟨_, he⟩⟩, ?_, ?_⟩
      · intro e hee
        rw [he] at hee
        injection hee with h
        subst h
        exact ⟨rfl, rfl⟩
      · intro hn
        exact absurd (Or.inl ⟨rfl, hnm⟩) hn
  | custom =>
    by_cases hs : setConfigSchemaOk d
    · by_cases hcu : customSidesOk d
      · have he : diceConfigSet ⟨d, SelectionMethod.custom⟩ =
            Except.ok (diceConfigResponseFor d SelectionMethod.custom) := by
          simp [diceConfigSet, hs, hcu]
        have hok : d.den = 1 ∧ 2 ≤ d ∧ d ≤ 1000 := hcu
        refine ⟨⟨?_, ?_⟩, ?_, ?_⟩
        · rintro ⟨e, hee⟩
          rw [he] at hee
          exact absurd hee (by simp)
        · intro hsf
          rcases hsf with ⟨hpm, -⟩ | ⟨-, hno⟩
          · exact absurd hpm (by simp)
          · exact absurd hok hno
        · intro e hee
          rw [he] at hee
          exact absurd hee (by simp)
        · intro hn
          exact ⟨he, rfl⟩
      · have he : diceConfigSet ⟨d, SelectionMethod.custom⟩ =
            Except.error ⟨"VALIDATION_ERROR", customErrorMessageFor d, 400⟩ := by
          simp [diceConfigSet, hs, hcu]
        have hno : ¬ (d.den = 1 ∧ 2 ≤ d ∧ d ≤ 1000) := fun h => hcu h
        refine ⟨⟨fun _ => Or.inr ⟨rfl, hno⟩, fun _ => ⟨_, he⟩⟩, ?_, ?_⟩
        · intro e hee
          rw [he] at hee
          injection hee with h
          subst h
          exact ⟨rfl, rfl⟩
        · intro hn
          exact absurd (Or.inr ⟨rfl, hno⟩) hn
    · have he : diceConfigSet ⟨d, SelectionMethod.custom⟩ =
          Except.error ⟨"VALIDATION_ERROR", "Validation failed", 400⟩ := by
        simp [diceConfigSet, hs]
      have hno : ¬ (d.den = 1 ∧ 2 ≤ d ∧ d ≤ 1000) := by
        rintro ⟨h1, h2, h3⟩
        exact hs ⟨h1, lt_of_lt_of_le (by norm_num) h2⟩
      refine ⟨⟨fun _ => Or.inr ⟨rfl, hno⟩, fun _ => ⟨_, he⟩⟩, ?_, ?_⟩
      · intro e hee
        rw [he] at hee
        injection hee with h
        subst h
        exact ⟨rfl, rfl⟩
      · intro hn
        exact absurd (Or.inr ⟨rfl, hno⟩) hn

/-- Witness for C8: the valid predefined body with 20 sides succeeds. -/
theorem diceConfigSet_validation_witness :
    diceConfigSet ⟨20, SelectionMethod.predefined⟩ =
      Except.ok (diceConfigResponseFor (20 : ℚ) SelectionMethod.predefined) :=
  ((diceConfigSet_validation ⟨20, SelectionMethod.predefined⟩).2.2 (by decide)).1
